import Mathlib

/-!
# GazeboGpsPlugin (rotors_gazebo_plugins/src/gazebo_gps_plugin.cpp)

A shallow embedding of the GPS sensor plugin.  The plugin object becomes a
record, each member function becomes a function on that record, and every call
into the simulator (logging, transport, the sensor's event source) is recorded
as an `Effect` in the order the source performs it.

Numbers of C++ type `double` are kept abstract: the embedding is generic in a
type `D` carrying `0`, `1`, `+` and `*`, and no arithmetic law is used unless a
theorem lists it as a hypothesis.  Pointers are `Option` values; dereferencing a
null pointer aborts the call (`Except.error`) with the state and the effects
reached so far.
-/

namespace GazeboGps

/-! ## Host data -/

/-- The type `common::Time`: the two integer members read by `OnUpdate`. -/
structure Time where
  sec : Int
  nsec : Int
deriving DecidableEq, Repr

/-- The type `math::Vector3`. -/
structure Vector3 (D : Type) where
  x : D
  y : D
  z : D
deriving DecidableEq, Repr

/-- Compound assignment `operator+=` of `math::Vector3`: componentwise sum. -/
def Vector3.add {D : Type} [Add D] (a b : Vector3 D) : Vector3 D :=
  { x := a.x + b.x, y := a.y + b.y, z := a.z + b.z }

/-- A `physics::Link` of the world, identified by its scoped name. -/
structure Link where
  name : String
deriving DecidableEq, Repr

/-- What `world_->GetByName` can return: a link, or some other kind of entity
(for which the `dynamic_pointer_cast` to `physics::Link` yields null). -/
inductive Entity where
  | link (l : Link)
  | other
deriving DecidableEq, Repr

/-- The world returned by `physics::get_world`: its named entities. -/
structure World where
  entities : List (String × Entity)
deriving DecidableEq, Repr

/-- The call `world_->GetByName(name)`: the first entity of that name, or null. -/
def World.GetByName (w : World) (name : String) : Option Entity :=
  (w.entities.find? (fun e => e.1 == name)).map (fun e => e.2)

/-- The cast `boost::dynamic_pointer_cast<physics::Link>`. -/
def dynamic_pointer_cast_Link : Option Entity → Option Link
  | some (Entity.link l) => some l
  | _ => none

/-- The scene description element handed to `Load`: each element the plugin asks
for is either present with a value or absent. -/
structure Sdf (D : Type) where
  robotNamespace : Option String
  linkName : Option String
  gpsTopic : Option String
  groundSpeedTopic : Option String
  horPosStdDev : Option D
  verPosStdDev : Option D
  horVelStdDev : Option D
  verVelStdDev : Option D
deriving DecidableEq, Repr

/-- Constants of the plugin's headers that the source file refers to by name. -/
structure Constants (D : Type) where
  kConnectGazeboToRosSubtopic : String
  kDefaultGroundSpeedPubTopic : String
  kDefaultHorPosStdDev : D
  kDefaultVerPosStdDev : D
  kDefaultHorVelStdDev : D
  kDefaultVerVelStdDev : D
deriving DecidableEq, Repr

/-- Modelled from the spec: `getSdfParam` lives in the plugins' common header,
which is not among the sources.  The spec calls the values "configuration values
read from a scene-description file"; the call sites pass the element name, the
output variable and a default, so the output is the element's value when the
element is present and the default otherwise. -/
def getSdfParam {α : Type} (element : Option α) (default_value : α) : α :=
  match element with
  | some v => v
  | none => default_value

/-! ## Random numbers -/

/-- The type `NormalDistribution` (`std::normal_distribution<>`): its two
parameters and the value an implementation may keep between two calls. -/
structure NormalDistribution (D : Type) where
  mean : D
  stddev : D
  saved : Option D
deriving DecidableEq, Repr

/-- The constructor `NormalDistribution(mean, stddev)`. -/
def NormalDistribution.mk2 {D : Type} (mean stddev : D) : NormalDistribution D :=
  { mean := mean, stddev := stddev, saved := none }

/-- The order in which the three arguments of the `math::Vector3` constructor in
`OnUpdate` are evaluated; the language leaves it to the compiler. -/
inductive ArgOrder where
  | o012 | o021 | o102 | o120 | o201 | o210
deriving DecidableEq, Repr

/-- The parts of the C++ implementation the plugin relies on: drawing one value
from a distribution with the generator `random_generator_` (the call
`dist(random_generator_)`, which may update both objects), and the evaluation
order of constructor arguments. -/
structure Platform (D G : Type) where
  sample : NormalDistribution D → G → D × NormalDistribution D × G
  order : ArgOrder

/-- A C array of three elements, such as `ground_speed_n_[3]`. -/
structure Array3 (α : Type) where
  a0 : α
  a1 : α
  a2 : α
deriving DecidableEq, Repr

/-! ## Messages -/

/-- The time stamp of a message header; a field never set is `none`. -/
structure Stamp where
  sec : Option Int
  nsec : Option Int
deriving DecidableEq, Repr

/-- A message header. -/
structure Header where
  frame_id : Option String
  stamp : Stamp
deriving DecidableEq, Repr

/-- A header of a freshly constructed message. -/
def Header.empty : Header :=
  { frame_id := none, stamp := { sec := none, nsec := none } }

/-- The enumerator of `NavSatFix` services named in the source. -/
inductive Service where
  | SERVICE_GPS
deriving DecidableEq, Repr

/-- The enumerator of `NavSatFix` statuses named in the source. -/
inductive Status where
  | STATUS_FIX
deriving DecidableEq, Repr

/-- The enumerator of `NavSatFix` covariance types named in the source. -/
inductive CovarianceType where
  | COVARIANCE_TYPE_KNOWN
deriving DecidableEq, Repr

/-- The message `sensor_msgs::msgs::NavSatFix` (the fix record). -/
structure NavSatFix (D : Type) where
  header : Header
  service : Option Service
  status : Option Status
  position_covariance_type : Option CovarianceType
  position_covariance : List D
  latitude : Option D
  longitude : Option D
  altitude : Option D
deriving DecidableEq, Repr

/-- A freshly constructed fix record. -/
def NavSatFix.empty {D : Type} : NavSatFix D :=
  { header := Header.empty, service := none, status := none,
    position_covariance_type := none, position_covariance := [],
    latitude := none, longitude := none, altitude := none }

/-- The linear part of a twist; a field never set is `none`. -/
structure Vector3d (D : Type) where
  x : Option D
  y : Option D
  z : Option D
deriving DecidableEq, Repr

/-- The twist of a twist record, with the part the plugin touches. -/
structure Twist (D : Type) where
  linear : Vector3d D
deriving DecidableEq, Repr

/-- The message `sensor_msgs::msgs::TwistStamped` (the twist record). -/
structure TwistStamped (D : Type) where
  header : Header
  twist : Twist D
deriving DecidableEq, Repr

/-- A freshly constructed twist record. -/
def TwistStamped.empty {D : Type} : TwistStamped D :=
  { header := Header.empty, twist := { linear := { x := none, y := none, z := none } } }

/-- The message type tags of a registration record named in the source. -/
inductive MsgType where
  | NAV_SAT_FIX
  | TWIST_STAMPED
deriving DecidableEq, Repr

/-- The message `gz_std_msgs::ConnectGazeboToRosTopic` (a registration record). -/
structure ConnectGazeboToRosTopic where
  gazebo_topic : Option String
  ros_topic : Option String
  msgtype : Option MsgType
deriving DecidableEq, Repr

/-- A freshly constructed registration record. -/
def ConnectGazeboToRosTopic.empty : ConnectGazeboToRosTopic :=
  { gazebo_topic := none, ros_topic := none, msgtype := none }

/-! ## Transport and effects -/

/-- The message class a channel is advertised for. -/
inductive Channel where
  | ConnectGazeboToRosTopic
  | NavSatFix
  | TwistStamped
deriving DecidableEq, Repr

/-- A `transport::Node` after `Init`. -/
structure Node where
  ns : String
deriving DecidableEq, Repr

/-- A `transport::Publisher` as returned by `Advertise`. -/
structure Publisher where
  topic : String
  channel : Channel
  queueLimit : Nat
deriving DecidableEq, Repr

/-- The connection returned by `ConnectUpdated`: the member function bound to
the sensor's update event. -/
inductive Connection where
  | OnUpdate
deriving DecidableEq, Repr

/-- Calls into the simulator, in the order they are made. -/
inductive Effect (D : Type) where
  | gzerr (text : String)
  | gzmsg (text : String)
  | nodeInit (ns : String)
  | connectUpdated (c : Connection)
  | setActive (active : Bool)
  | advertise (topic : String) (channel : Channel) (queueLimit : Nat)
  | publishConnect (pub : Publisher) (msg : ConnectGazeboToRosTopic) (block : Bool)
  | publishFix (pub : Publisher) (msg : NavSatFix D)
  | publishTwist (pub : Publisher) (msg : TwistStamped D)
deriving DecidableEq, Repr

/-- The call `node_handle_->Advertise<M>(topic, limit)`. -/
def Node.Advertise (_n : Node) (topic : String) (channel : Channel) (queueLimit : Nat) :
    Publisher :=
  { topic := topic, channel := channel, queueLimit := queueLimit }

/-! ## The plugin object -/

/-- The data members of `GazeboGpsPlugin` used by the source file. -/
structure GazeboGpsPlugin (D G : Type) where
  random_generator_ : G
  pubs_and_subs_created_ : Bool
  node_handle_ : Option Node
  link_ : Option Link
  gps_topic_ : String
  ground_speed_topic_ : String
  ground_speed_n_ : Array3 (NormalDistribution D)
  gz_gps_message_ : NavSatFix D
  gz_ground_speed_message_ : TwistStamped D
  gz_gps_pub_ : Option Publisher
  gz_ground_speed_pub_ : Option Publisher
  updateConnection_ : Option Connection

/-- The constructor: the generator is seeded (`seed` is the generator state
obtained from `random_device_`), the flag is false, every other member is
default-constructed. -/
def GazeboGpsPlugin.new {D G : Type} [Zero D] [One D] (seed : G) : GazeboGpsPlugin D G :=
  { random_generator_ := seed
    pubs_and_subs_created_ := false
    node_handle_ := none
    link_ := none
    gps_topic_ := ""
    ground_speed_topic_ := ""
    ground_speed_n_ :=
      { a0 := NormalDistribution.mk2 0 1, a1 := NormalDistribution.mk2 0 1,
        a2 := NormalDistribution.mk2 0 1 }
    gz_gps_message_ := NavSatFix.empty
    gz_ground_speed_message_ := TwistStamped.empty
    gz_gps_pub_ := none
    gz_ground_speed_pub_ := none
    updateConnection_ := none }

section Definitions

variable {D G : Type} [Zero D] [One D] [Add D] [Mul D]

/-- The abort of a call at a null pointer (`Except.error`) and its normal return
(`Except.ok`) both carry the plugin state reached and the effects performed. -/
abbrev Outcome (D G : Type) : Type :=
  Except (GazeboGpsPlugin D G × List (Effect D)) (GazeboGpsPlugin D G × List (Effect D))

/-- The plugin state an outcome carries. -/
def Outcome.plugin : Outcome D G → GazeboGpsPlugin D G
  | Except.ok r => r.1
  | Except.error r => r.1

/-- The effects an outcome carries. -/
def Outcome.effects : Outcome D G → List (Effect D)
  | Except.ok r => r.2
  | Except.error r => r.2

/-! ## Load -/

/-- The call `add_position_covariance(v)` on the fix record. -/
def NavSatFix.add_position_covariance (m : NavSatFix D) (v : D) : NavSatFix D :=
  { m with position_covariance := m.position_covariance ++ [v] }

/-- The `switch (i)` inside the covariance loop of `Load`. -/
def covarianceSwitch (hor_pos_std_dev ver_pos_std_dev : D) (m : NavSatFix D) (i : Nat) :
    NavSatFix D :=
  match i with
  | 0 => m.add_position_covariance (hor_pos_std_dev * hor_pos_std_dev)
  | 1 => m.add_position_covariance 0
  | 2 => m.add_position_covariance 0
  | 3 => m.add_position_covariance 0
  | 4 => m.add_position_covariance (hor_pos_std_dev * hor_pos_std_dev)
  | 5 => m.add_position_covariance 0
  | 6 => m.add_position_covariance 0
  | 7 => m.add_position_covariance 0
  | 8 => m.add_position_covariance (ver_pos_std_dev * ver_pos_std_dev)
  | _ => m

/-- The loop `for (int i = 0; i < 9; i++)` of `Load`. -/
def covarianceLoop (hor_pos_std_dev ver_pos_std_dev : D) (m : NavSatFix D) : NavSatFix D :=
  (List.range 9).foldl (covarianceSwitch hor_pos_std_dev ver_pos_std_dev) m

/-- The error `Load` logs when the element `robotNamespace` is absent. -/
def errRobotNamespace : String := "[gazebo_gps_plugin] Please specify a robotNamespace.\n"

/-- The error `Load` logs when the element `linkName` is absent. -/
def errLinkName : String := "[gazebo_gps_plugin] Please specify a linkName.\n"

/-- The error `Load` logs when the link pointer is null. -/
def errLink (link_name : String) : String :=
  "[gazebo_gps_plugin] Couldn\x27t find specified link \"" ++ link_name ++ "\"\n"

/-- The member function `Load`, for a sensor that is a GPS sensor of the world
`world` (the members `parent_sensor_` and `world_` are these two; the sensor's
readings reach `OnUpdate` as a `Tick`).  It returns the plugin state and the
calls it made; the source has no `return` and no `throw` in it. -/
def Load (k : Constants D) (world : World) (sdf : Sdf D) (p : GazeboGpsPlugin D G) :
    GazeboGpsPlugin D G × List (Effect D) :=
  -- robotNamespace: read it, or log an error and keep the empty string
  let node_namespace : String := match sdf.robotNamespace with
    | some v => v
    | none => ""
  let e1 : List (Effect D) := match sdf.robotNamespace with
    | some _ => []
    | none => [Effect.gzerr errRobotNamespace]
  let node : Node := { ns := node_namespace }
  let e2 : List (Effect D) := [Effect.nodeInit node_namespace]
  -- linkName: read it, or log an error and keep the empty string
  let link_name : String := match sdf.linkName with
    | some v => v
    | none => ""
  let e3 : List (Effect D) := match sdf.linkName with
    | some _ => []
    | none => [Effect.gzerr errLinkName]
  let frame_id : String := link_name
  let link : Option Link := dynamic_pointer_cast_Link (world.GetByName link_name)
  let e4 : List (Effect D) := match link with
    | some _ => []
    | none => [Effect.gzerr (errLink link_name)]
  let hor_pos_std_dev : D := getSdfParam sdf.horPosStdDev k.kDefaultHorPosStdDev
  let ver_pos_std_dev : D := getSdfParam sdf.verPosStdDev k.kDefaultVerPosStdDev
  let hor_vel_std_dev : D := getSdfParam sdf.horVelStdDev k.kDefaultHorVelStdDev
  let ver_vel_std_dev : D := getSdfParam sdf.verVelStdDev k.kDefaultVerVelStdDev
  -- connect to the sensor update event, activate the sensor
  let e5 : List (Effect D) := [Effect.connectUpdated Connection.OnUpdate, Effect.setActive true]
  -- static parts of the fix record
  let gps0 : NavSatFix D := p.gz_gps_message_
  let gps1 : NavSatFix D :=
    { gps0 with
      header := { gps0.header with frame_id := some "test" }
      service := some Service.SERVICE_GPS
      status := some Status.STATUS_FIX
      position_covariance_type := some CovarianceType.COVARIANCE_TYPE_KNOWN }
  let gps2 : NavSatFix D := covarianceLoop hor_pos_std_dev ver_pos_std_dev gps1
  -- static part of the ground speed record
  let gs0 : TwistStamped D := p.gz_ground_speed_message_
  let gs1 : TwistStamped D := { gs0 with header := { gs0.header with frame_id := some frame_id } }
  ({ p with
      node_handle_ := some node
      link_ := link
      gps_topic_ := getSdfParam sdf.gpsTopic ""
      ground_speed_topic_ := getSdfParam sdf.groundSpeedTopic k.kDefaultGroundSpeedPubTopic
      updateConnection_ := some Connection.OnUpdate
      ground_speed_n_ :=
        { a0 := NormalDistribution.mk2 0 hor_vel_std_dev
          a1 := NormalDistribution.mk2 0 hor_vel_std_dev
          a2 := NormalDistribution.mk2 0 ver_vel_std_dev }
      gz_gps_message_ := gps2
      gz_ground_speed_message_ := gs1 },
   e1 ++ e2 ++ e3 ++ e4 ++ e5)

/-! ## CreatePubsAndSubs -/

/-- The text `CreatePubsAndSubs` logs before advertising a measurement topic. -/
def msgCreating (topic : String) : String :=
  "GazeboGpsPlugin creating publisher on \"" ++ topic ++ "\".\n"

/-- The member function `CreatePubsAndSubs`. -/
def CreatePubsAndSubs (k : Constants D) (p : GazeboGpsPlugin D G) : Outcome D G :=
  match p.node_handle_ with
  | none => Except.error (p, [])
  | some node =>
    let connect_topic : String := "~/" ++ k.kConnectGazeboToRosSubtopic
    let connect_gazebo_to_ros_topic_pub : Publisher :=
      node.Advertise connect_topic Channel.ConnectGazeboToRosTopic 1
    let msg0 : ConnectGazeboToRosTopic := ConnectGazeboToRosTopic.empty
    -- nav sat fix
    let gps_pub : Publisher := node.Advertise p.gps_topic_ Channel.NavSatFix 1
    let p1 : GazeboGpsPlugin D G := { p with gz_gps_pub_ := some gps_pub }
    let msg1 : ConnectGazeboToRosTopic := { msg0 with gazebo_topic := some p1.gps_topic_ }
    let msg2 : ConnectGazeboToRosTopic := { msg1 with ros_topic := some p1.gps_topic_ }
    let msg3 : ConnectGazeboToRosTopic := { msg2 with msgtype := some MsgType.NAV_SAT_FIX }
    -- ground speed
    let gs_pub : Publisher := node.Advertise p1.ground_speed_topic_ Channel.TwistStamped 1
    let p2 : GazeboGpsPlugin D G := { p1 with gz_ground_speed_pub_ := some gs_pub }
    let msg4 : ConnectGazeboToRosTopic := { msg3 with gazebo_topic := some p2.ground_speed_topic_ }
    let msg5 : ConnectGazeboToRosTopic := { msg4 with ros_topic := some p2.ground_speed_topic_ }
    let msg6 : ConnectGazeboToRosTopic := { msg5 with msgtype := some MsgType.TWIST_STAMPED }
    Except.ok (p2,
      [ Effect.advertise connect_topic Channel.ConnectGazeboToRosTopic 1,
        Effect.gzmsg (msgCreating p.gps_topic_),
        Effect.advertise p.gps_topic_ Channel.NavSatFix 1,
        Effect.publishConnect connect_gazebo_to_ros_topic_pub msg3 true,
        Effect.gzmsg (msgCreating p1.ground_speed_topic_),
        Effect.advertise p1.ground_speed_topic_ Channel.TwistStamped 1,
        Effect.publishConnect connect_gazebo_to_ros_topic_pub msg6 false ])

/-! ## OnUpdate -/

/-- What the simulator holds when the sensor's update event fires: the sensor's
position and last measurement time, and the value `link_->GetWorldLinearVel()`
returns for the tracked link. -/
structure Tick (D : Type) where
  Latitude : D
  Longitude : D
  Altitude : D
  LastMeasurementTime : Time
  WorldLinearVel : Vector3 D
deriving DecidableEq, Repr

/-- Three draws in sequence from three distributions with one generator. -/
def sample3 (pf : Platform D G) (d1 d2 d3 : NormalDistribution D) (g : G) :
    (D × D × D) × (NormalDistribution D × NormalDistribution D × NormalDistribution D) × G :=
  let r1 := pf.sample d1 g
  let r2 := pf.sample d2 r1.2.2
  let r3 := pf.sample d3 r2.2.2
  ((r1.1, r2.1, r3.1), (r1.2.1, r2.2.1, r3.2.1), r3.2.2)

/-- The expression `math::Vector3(ground_speed_n_[0](random_generator_),
ground_speed_n_[1](random_generator_), ground_speed_n_[2](random_generator_))`:
the vector built, and the distributions and the generator after the three calls,
made in the platform's argument order. -/
def drawNoise (pf : Platform D G) (n : Array3 (NormalDistribution D)) (g : G) :
    Vector3 D × Array3 (NormalDistribution D) × G :=
  match pf.order with
  | ArgOrder.o012 =>
    let r := sample3 pf n.a0 n.a1 n.a2 g
    ({ x := r.1.1, y := r.1.2.1, z := r.1.2.2 },
     { a0 := r.2.1.1, a1 := r.2.1.2.1, a2 := r.2.1.2.2 }, r.2.2)
  | ArgOrder.o021 =>
    let r := sample3 pf n.a0 n.a2 n.a1 g
    ({ x := r.1.1, y := r.1.2.2, z := r.1.2.1 },
     { a0 := r.2.1.1, a1 := r.2.1.2.2, a2 := r.2.1.2.1 }, r.2.2)
  | ArgOrder.o102 =>
    let r := sample3 pf n.a1 n.a0 n.a2 g
    ({ x := r.1.2.1, y := r.1.1, z := r.1.2.2 },
     { a0 := r.2.1.2.1, a1 := r.2.1.1, a2 := r.2.1.2.2 }, r.2.2)
  | ArgOrder.o120 =>
    let r := sample3 pf n.a1 n.a2 n.a0 g
    ({ x := r.1.2.2, y := r.1.1, z := r.1.2.1 },
     { a0 := r.2.1.2.2, a1 := r.2.1.1, a2 := r.2.1.2.1 }, r.2.2)
  | ArgOrder.o201 =>
    let r := sample3 pf n.a2 n.a0 n.a1 g
    ({ x := r.1.2.1, y := r.1.2.2, z := r.1.1 },
     { a0 := r.2.1.2.1, a1 := r.2.1.2.2, a2 := r.2.1.1 }, r.2.2)
  | ArgOrder.o210 =>
    let r := sample3 pf n.a2 n.a1 n.a0 g
    ({ x := r.1.2.2, y := r.1.2.1, z := r.1.1 },
     { a0 := r.2.1.2.2, a1 := r.2.1.2.1, a2 := r.2.1.1 }, r.2.2)

/-- The guarded block at the top of `OnUpdate`: create the channels unless the
flag says they exist, then set the flag. -/
def ensurePubsAndSubs (k : Constants D) (p : GazeboGpsPlugin D G) : Outcome D G :=
  if p.pubs_and_subs_created_ then Except.ok (p, [])
  else
    match CreatePubsAndSubs k p with
    | Except.error r => Except.error r
    | Except.ok r => Except.ok ({ r.1 with pubs_and_subs_created_ := true }, r.2)

/-- The fix record after `OnUpdate` has written position and time into it.  The
two branches of the Gazebo version test read the same three sensor values and
the same time under different accessor names. -/
def fillGps (t : Tick D) (m : NavSatFix D) : NavSatFix D :=
  let current_time : Time := t.LastMeasurementTime
  let m1 : NavSatFix D := { m with latitude := some t.Latitude }
  let m2 : NavSatFix D := { m1 with longitude := some t.Longitude }
  let m3 : NavSatFix D := { m2 with altitude := some t.Altitude }
  let m4 : NavSatFix D :=
    { m3 with header := { m3.header with stamp := { m3.header.stamp with sec := some current_time.sec } } }
  { m4 with header := { m4.header with stamp := { m4.header.stamp with nsec := some current_time.nsec } } }

/-- The twist record after `OnUpdate` has written velocity and time into it. -/
def fillGroundSpeed (t : Tick D) (W_ground_speed_W_L : Vector3 D) (m : TwistStamped D) :
    TwistStamped D :=
  let current_time : Time := t.LastMeasurementTime
  let m1 : TwistStamped D :=
    { m with twist := { m.twist with linear := { m.twist.linear with x := some W_ground_speed_W_L.x } } }
  let m2 : TwistStamped D :=
    { m1 with twist := { m1.twist with linear := { m1.twist.linear with y := some W_ground_speed_W_L.y } } }
  let m3 : TwistStamped D :=
    { m2 with twist := { m2.twist with linear := { m2.twist.linear with z := some W_ground_speed_W_L.z } } }
  let m4 : TwistStamped D :=
    { m3 with header := { m3.header with stamp := { m3.header.stamp with sec := some current_time.sec } } }
  { m4 with header := { m4.header with stamp := { m4.header.stamp with nsec := some current_time.nsec } } }

/-- The rest of `OnUpdate`, after the guarded block. -/
def measureAndPublish (pf : Platform D G) (t : Tick D) (p : GazeboGpsPlugin D G)
    (es : List (Effect D)) : Outcome D G :=
  match p.link_ with
  | none => Except.error (p, es)
  | some _ =>
    let noise := drawNoise pf p.ground_speed_n_ p.random_generator_
    let W_ground_speed_W_L : Vector3 D := t.WorldLinearVel.add noise.1
    let p1 : GazeboGpsPlugin D G :=
      { p with
        ground_speed_n_ := noise.2.1
        random_generator_ := noise.2.2
        gz_gps_message_ := fillGps t p.gz_gps_message_
        gz_ground_speed_message_ := fillGroundSpeed t W_ground_speed_W_L p.gz_ground_speed_message_ }
    match p1.gz_gps_pub_ with
    | none => Except.error (p1, es)
    | some gps_pub =>
      match p1.gz_ground_speed_pub_ with
      | none => Except.error (p1, es ++ [Effect.publishFix gps_pub p1.gz_gps_message_])
      | some gs_pub =>
        Except.ok (p1, es ++ [Effect.publishFix gps_pub p1.gz_gps_message_,
                              Effect.publishTwist gs_pub p1.gz_ground_speed_message_])

/-- The member function `OnUpdate`. -/
def OnUpdate (k : Constants D) (pf : Platform D G) (p : GazeboGpsPlugin D G) (t : Tick D) :
    Outcome D G :=
  match ensurePubsAndSubs k p with
  | Except.error r => Except.error r
  | Except.ok r => measureAndPublish pf t r.1 r.2

/-- A sequence of `OnUpdate` calls, one per tick; it stops at the first call
that aborts.  The effects of all calls are concatenated. -/
def runUpdates (k : Constants D) (pf : Platform D G) :
    GazeboGpsPlugin D G → List (Tick D) → Outcome D G
  | p, [] => Except.ok (p, [])
  | p, t :: ts =>
    match OnUpdate k pf p t with
    | Except.error r => Except.error r
    | Except.ok r =>
      match runUpdates k pf r.1 ts with
      | Except.error r2 => Except.error (r2.1, r.2 ++ r2.2)
      | Except.ok r2 => Except.ok (r2.1, r.2 ++ r2.2)

/-- The sensor's update event: it calls what `ConnectUpdated` was given, if
anything. -/
def sensorUpdated (k : Constants D) (pf : Platform D G) (p : GazeboGpsPlugin D G) (t : Tick D) :
    Outcome D G :=
  match p.updateConnection_ with
  | some Connection.OnUpdate => OnUpdate k pf p t
  | none => Except.ok (p, [])

/-! ## Observations on effects and states -/

/-- The fix records published, in order. -/
def publishedFixes : List (Effect D) → List (NavSatFix D)
  | [] => []
  | Effect.publishFix _ m :: es => m :: publishedFixes es
  | _ :: es => publishedFixes es

/-- The twist records published, in order. -/
def publishedTwists : List (Effect D) → List (TwistStamped D)
  | [] => []
  | Effect.publishTwist _ m :: es => m :: publishedTwists es
  | _ :: es => publishedTwists es

/-- The registration records emitted, in order. -/
def registrations : List (Effect D) → List ConnectGazeboToRosTopic
  | [] => []
  | Effect.publishConnect _ m _ :: es => m :: registrations es
  | _ :: es => registrations es

/-- The measurement channels advertised (fix or twist), as topic and class. -/
def measurementChannels : List (Effect D) → List (String × Channel)
  | [] => []
  | Effect.advertise topic Channel.NavSatFix _ :: es =>
    (topic, Channel.NavSatFix) :: measurementChannels es
  | Effect.advertise topic Channel.TwistStamped _ :: es =>
    (topic, Channel.TwistStamped) :: measurementChannels es
  | _ :: es => measurementChannels es

/-- The transport calls among the effects (everything but log output). -/
def transportCalls : List (Effect D) → List (Effect D)
  | [] => []
  | Effect.gzerr _ :: es => transportCalls es
  | Effect.gzmsg _ :: es => transportCalls es
  | e :: es => e :: transportCalls es

/-- The states in which `OnUpdate` meets no null pointer: the link is there, and
so are the publishers if the flag says they were created, the node otherwise. -/
def Ready (p : GazeboGpsPlugin D G) : Prop :=
  p.link_.isSome = true ∧
    (if p.pubs_and_subs_created_ = true
     then p.gz_gps_pub_.isSome = true ∧ p.gz_ground_speed_pub_.isSome = true
     else p.node_handle_.isSome = true)

instance (p : GazeboGpsPlugin D G) : Decidable (Ready p) := by
  unfold Ready; infer_instance

/-- The name `Load` looks the link up by. -/
def configuredLinkName (sdf : Sdf D) : String :=
  match sdf.linkName with
  | some v => v
  | none => ""

/-- The link name of the configuration resolves to a link of the world. -/
def LinkResolves (world : World) (sdf : Sdf D) : Prop :=
  (dynamic_pointer_cast_Link (world.GetByName (configuredLinkName sdf))).isSome = true

instance (world : World) (sdf : Sdf D) : Decidable (LinkResolves world sdf) := by
  unfold LinkResolves; infer_instance

/-- The vector `W_ground_speed_W_L` of `OnUpdate` after the noise is added. -/
def noisedVelocity (pf : Platform D G) (p : GazeboGpsPlugin D G) (t : Tick D) : Vector3 D :=
  t.WorldLinearVel.add (drawNoise pf p.ground_speed_n_ p.random_generator_).1

/-- A freshly constructed plugin after one `Load`. -/
def freshLoaded (k : Constants D) (world : World) (sdf : Sdf D) (seed : G) : GazeboGpsPlugin D G :=
  (Load k world sdf (GazeboGpsPlugin.new seed)).1

/-- The callbacks connected to the sensor's update event, in order. -/
def connectedCallbacks : List (Effect D) → List Connection
  | [] => []
  | Effect.connectUpdated c :: es => c :: connectedCallbacks es
  | _ :: es => connectedCallbacks es

/-- A sequence of sensor update events, one per tick; it stops at the first
call that aborts.  The effects of all events are concatenated. -/
def runSensorUpdates (k : Constants D) (pf : Platform D G) :
    GazeboGpsPlugin D G → List (Tick D) → Outcome D G
  | p, [] => Except.ok (p, [])
  | p, t :: ts =>
    match sensorUpdated k pf p t with
    | Except.error r => Except.error r
    | Except.ok r =>
      match runSensorUpdates k pf r.1 ts with
      | Except.error r2 => Except.error (r2.1, r.2 ++ r2.2)
      | Except.ok r2 => Except.ok (r2.1, r.2 ++ r2.2)

/-- The three draws of one call chained through the generator.  Each of `x`, `y`
and `z` is the pair (generator before the draw, generator after the draw) of
the draw for that axis; `g` is the generator before the call and `g'` the
generator after it.  The draw evaluated first starts from `g`, every later draw
starts from what the draw before it left, and `g'` is what the last one left. -/
def evaluationChain (o : ArgOrder) (g : G) (x y z : G × G) (g' : G) : Prop :=
  match o with
  | ArgOrder.o012 => x.1 = g ∧ y.1 = x.2 ∧ z.1 = y.2 ∧ g' = z.2
  | ArgOrder.o021 => x.1 = g ∧ z.1 = x.2 ∧ y.1 = z.2 ∧ g' = y.2
  | ArgOrder.o102 => y.1 = g ∧ x.1 = y.2 ∧ z.1 = x.2 ∧ g' = z.2
  | ArgOrder.o120 => y.1 = g ∧ z.1 = y.2 ∧ x.1 = z.2 ∧ g' = x.2
  | ArgOrder.o201 => z.1 = g ∧ x.1 = z.2 ∧ y.1 = x.2 ∧ g' = y.2
  | ArgOrder.o210 => z.1 = g ∧ y.1 = z.2 ∧ x.1 = y.2 ∧ g' = x.2

/-- The three distributions are noise-free: mean 0 and standard deviation 0. -/
def NoiseOff (n : Array3 (NormalDistribution D)) : Prop :=
  (n.a0.mean = 0 ∧ n.a0.stddev = 0) ∧ (n.a1.mean = 0 ∧ n.a1.stddev = 0) ∧
    (n.a2.mean = 0 ∧ n.a2.stddev = 0)

/-- The position a fix record carries. -/
def NavSatFix.position (m : NavSatFix D) : Option D × Option D × Option D :=
  (m.latitude, m.longitude, m.altitude)

/-- The position the sensor reports at a tick. -/
def Tick.position (t : Tick D) : Option D × Option D × Option D :=
  (some t.Latitude, some t.Longitude, some t.Altitude)

/-- The link velocity at a tick, as the linear part of a twist. -/
def Tick.linear (t : Tick D) : Vector3d D :=
  { x := some t.WorldLinearVel.x, y := some t.WorldLinearVel.y, z := some t.WorldLinearVel.z }

/-- Adding zero leaves each component of the link velocity of the tick as it
is. -/
def Tick.AddZeroExact (t : Tick D) : Prop :=
  t.WorldLinearVel.x + 0 = t.WorldLinearVel.x ∧
    t.WorldLinearVel.y + 0 = t.WorldLinearVel.y ∧
    t.WorldLinearVel.z + 0 = t.WorldLinearVel.z

end Definitions

/-! ## Concrete data for the worked instances -/

/-- A platform over the rationals: the generator is a counter, a draw is
`mean + stddev * counter` and advances the counter. -/
def demoPlatform : Platform ℚ ℕ :=
  { sample := fun d g => (d.mean + d.stddev * (g : ℚ), d, g + 1)
    order := ArgOrder.o210 }

/-- Header constants for the worked instances. -/
def demoConstants : Constants ℚ :=
  { kConnectGazeboToRosSubtopic := "connect_gazebo_to_ros_subtopic"
    kDefaultGroundSpeedPubTopic := "ground_speed"
    kDefaultHorPosStdDev := 3
    kDefaultVerPosStdDev := 6
    kDefaultHorVelStdDev := 1 / 10
    kDefaultVerVelStdDev := 1 / 10 }

/-- A world with one model and one link. -/
def demoWorld : World :=
  { entities := [("firefly", Entity.other), ("firefly/gps_link", Entity.link { name := "firefly/gps_link" })] }

/-- A complete configuration naming the link of `demoWorld`, noise disabled. -/
def demoSdf : Sdf ℚ :=
  { robotNamespace := some "firefly"
    linkName := some "firefly/gps_link"
    gpsTopic := some "gps"
    groundSpeedTopic := some "ground_speed"
    horPosStdDev := some 3
    verPosStdDev := some 6
    horVelStdDev := some 0
    verVelStdDev := some 0 }

/-- The configuration `demoSdf` with a link name the world does not have. -/
def sdfUnresolvedLink : Sdf ℚ := { demoSdf with linkName := some "firefly/no_such_link" }

/-- The configuration `demoSdf` without the element `robotNamespace`. -/
def sdfNoNamespace : Sdf ℚ := { demoSdf with robotNamespace := none }

/-- The configuration `demoSdf` without the element `linkName`. -/
def sdfNoLinkName : Sdf ℚ := { demoSdf with linkName := none }

/-- The tick of the end-to-end example of the spec. -/
def demoTick : Tick ℚ :=
  { Latitude := 47, Longitude := 17 / 2, Altitude := 500
    LastMeasurementTime := { sec := 12, nsec := 500000000 }
    WorldLinearVel := { x := 1, y := 0, z := 0 } }

/-- A second tick, with another position, time and velocity. -/
def demoTick2 : Tick ℚ :=
  { Latitude := 48, Longitude := 9, Altitude := 510
    LastMeasurementTime := { sec := 13, nsec := 0 }
    WorldLinearVel := { x := 2, y := -1, z := 1 / 2 } }

/-- Numbers with the signed zero of the C++ type `double` (IEEE 754): `negZero`
is -0.0, `num 0` is +0.0 and `num q` any other value.  Only the sign of a zero
result is modelled (rounding, infinities and NaN are not): the sum of two zeros
of opposite sign, or of a value and its opposite, is +0.0, and a zero product
has the product of the signs of its factors. -/
inductive SignedZero where
  | negZero
  | num (q : ℚ)
deriving DecidableEq

/-- Addition of `double` values with signed zero. -/
def SignedZero.add : SignedZero → SignedZero → SignedZero
  | SignedZero.negZero, SignedZero.negZero => SignedZero.negZero
  | SignedZero.negZero, SignedZero.num q => SignedZero.num q
  | SignedZero.num q, SignedZero.negZero => SignedZero.num q
  | SignedZero.num a, SignedZero.num b => SignedZero.num (a + b)

/-- Multiplication of `double` values with signed zero. -/
def SignedZero.mul : SignedZero → SignedZero → SignedZero
  | SignedZero.negZero, SignedZero.negZero => SignedZero.num 0
  | SignedZero.negZero, SignedZero.num q =>
    if q < 0 then SignedZero.num 0 else SignedZero.negZero
  | SignedZero.num q, SignedZero.negZero =>
    if q < 0 then SignedZero.num 0 else SignedZero.negZero
  | SignedZero.num a, SignedZero.num b =>
    if a * b = 0 ∧ (a < 0 ∨ b < 0) then SignedZero.negZero else SignedZero.num (a * b)

instance : Zero SignedZero := ⟨SignedZero.num 0⟩

instance : One SignedZero := ⟨SignedZero.num 1⟩

instance : Add SignedZero := ⟨SignedZero.add⟩

instance : Mul SignedZero := ⟨SignedZero.mul⟩

/-- The platform `demoPlatform` over numbers with signed zero. -/
def signedPlatform : Platform SignedZero ℕ :=
  { sample := fun d g => (d.mean + d.stddev * SignedZero.num (g : ℚ), d, g + 1)
    order := ArgOrder.o012 }

/-- Header constants over numbers with signed zero. -/
def signedConstants : Constants SignedZero :=
  { kConnectGazeboToRosSubtopic := "connect_gazebo_to_ros_subtopic"
    kDefaultGroundSpeedPubTopic := "ground_speed"
    kDefaultHorPosStdDev := SignedZero.num 3
    kDefaultVerPosStdDev := SignedZero.num 6
    kDefaultHorVelStdDev := SignedZero.num (1 / 10)
    kDefaultVerVelStdDev := SignedZero.num (1 / 10) }

/-- A complete configuration with both velocity standard deviations 0. -/
def signedSdf : Sdf SignedZero :=
  { robotNamespace := some "firefly"
    linkName := some "firefly/gps_link"
    gpsTopic := some "gps"
    groundSpeedTopic := some "ground_speed"
    horPosStdDev := some (SignedZero.num 3)
    verPosStdDev := some (SignedZero.num 6)
    horVelStdDev := some 0
    verVelStdDev := some 0 }

/-- A tick at which the x component of the link velocity is -0.0. -/
def signedTick : Tick SignedZero :=
  { Latitude := SignedZero.num 47, Longitude := SignedZero.num (17 / 2)
    Altitude := SignedZero.num 500
    LastMeasurementTime := { sec := 12, nsec := 500000000 }
    WorldLinearVel := { x := SignedZero.negZero, y := SignedZero.num 0, z := SignedZero.num 0 } }

/-! ## Lemmas -/

section Lemmas

variable {D G : Type}

theorem covarianceLoop_eq [Zero D] [Mul D] (h v : D) (m : NavSatFix D) :
    covarianceLoop h v m =
      { m with position_covariance :=
          m.position_covariance ++ [h * h, 0, 0, 0, h * h, 0, 0, 0, v * v] } := by
  simp [covarianceLoop, List.range, List.range.loop, covarianceSwitch,
    NavSatFix.add_position_covariance]

theorem registrations_append (a b : List (Effect D)) :
    registrations (a ++ b) = registrations a ++ registrations b := by
  induction a with
  | nil => rfl
  | cons e es ih => cases e <;> simp [registrations, ih]

theorem measurementChannels_append (a b : List (Effect D)) :
    measurementChannels (a ++ b) = measurementChannels a ++ measurementChannels b := by
  induction a with
  | nil => rfl
  | cons e es ih =>
    cases e with
    | advertise topic channel q => cases channel <;> simp [measurementChannels, ih]
    | _ => simp [measurementChannels, ih]

theorem Load_link_ [Zero D] [Mul D] (k : Constants D) (world : World) (sdf : Sdf D)
    (p : GazeboGpsPlugin D G) :
    (Load k world sdf p).1.link_ =
      dynamic_pointer_cast_Link (world.GetByName (configuredLinkName sdf)) := by
  simp [Load, configuredLinkName]

theorem Load_Ready [Zero D] [One D] [Mul D] (k : Constants D) (world : World) (sdf : Sdf D)
    (seed : G) (h : LinkResolves world sdf) :
    Ready (Load k world sdf (GazeboGpsPlugin.new seed)).1 := by
  refine ⟨?_, ?_⟩
  · rw [Load_link_]; exact h
  · simp [Load, GazeboGpsPlugin.new]

theorem OnUpdate_of_Ready [Add D] (k : Constants D) (pf : Platform D G)
    (p : GazeboGpsPlugin D G) (t : Tick D) (h : Ready p) :
    ∃ r, OnUpdate k pf p t = Except.ok r ∧
      publishedFixes r.2 = [fillGps t p.gz_gps_message_] ∧
      publishedTwists r.2 =
        [fillGroundSpeed t (noisedVelocity pf p t) p.gz_ground_speed_message_] ∧
      r.1.pubs_and_subs_created_ = true ∧ Ready r.1 := by
  obtain ⟨hl, hr⟩ := h
  obtain ⟨l, hlink⟩ := Option.isSome_iff_exists.mp hl
  cases hflag : p.pubs_and_subs_created_ with
  | true =>
    simp only [hflag, if_true] at hr
    obtain ⟨gp, hgp⟩ := Option.isSome_iff_exists.mp hr.1
    obtain ⟨sp, hsp⟩ := Option.isSome_iff_exists.mp hr.2
    simp [OnUpdate, ensurePubsAndSubs, measureAndPublish, hflag, hlink, hgp, hsp,
      publishedFixes, publishedTwists, noisedVelocity, Ready]
  | false =>
    simp only [hflag] at hr
    obtain ⟨nd, hnd⟩ := Option.isSome_iff_exists.mp (by simpa using hr)
    simp [OnUpdate, ensurePubsAndSubs, CreatePubsAndSubs, measureAndPublish, hflag, hlink,
      hnd, publishedFixes, publishedTwists, noisedVelocity, Ready]

/-- Once the flag is set, a call of `OnUpdate` keeps it set and neither
advertises nor registers. -/
theorem OnUpdate_created [Add D] (k : Constants D) (pf : Platform D G)
    (p : GazeboGpsPlugin D G) (t : Tick D) (h : p.pubs_and_subs_created_ = true) :
    (OnUpdate k pf p t).plugin.pubs_and_subs_created_ = true ∧
      registrations (OnUpdate k pf p t).effects = [] ∧
      measurementChannels (OnUpdate k pf p t).effects = [] := by
  simp only [OnUpdate, ensurePubsAndSubs, h, if_true, measureAndPublish]
  repeat' split
  all_goals simp [Outcome.plugin, Outcome.effects, registrations, measurementChannels, h]

/-- With the flag clear and a node at hand, a call of `OnUpdate` sets the flag,
advertises the two measurement channels and emits the two registrations. -/
theorem OnUpdate_first [Add D] (k : Constants D) (pf : Platform D G)
    (p : GazeboGpsPlugin D G) (t : Tick D) (node : Node)
    (h : p.pubs_and_subs_created_ = false) (hn : p.node_handle_ = some node) :
    (OnUpdate k pf p t).plugin.pubs_and_subs_created_ = true ∧
      registrations (OnUpdate k pf p t).effects =
        [ { gazebo_topic := some p.gps_topic_, ros_topic := some p.gps_topic_,
            msgtype := some MsgType.NAV_SAT_FIX },
          { gazebo_topic := some p.ground_speed_topic_, ros_topic := some p.ground_speed_topic_,
            msgtype := some MsgType.TWIST_STAMPED } ] ∧
      measurementChannels (OnUpdate k pf p t).effects =
        [(p.gps_topic_, Channel.NavSatFix), (p.ground_speed_topic_, Channel.TwistStamped)] := by
  cases hl : p.link_ <;>
    simp [OnUpdate, ensurePubsAndSubs, h, CreatePubsAndSubs, hn, hl, measureAndPublish,
      Outcome.plugin, Outcome.effects, registrations, measurementChannels,
      ConnectGazeboToRosTopic.empty, Node.Advertise]

theorem runUpdates_created [Add D] (k : Constants D) (pf : Platform D G) (ticks : List (Tick D)) :
    ∀ p : GazeboGpsPlugin D G, p.pubs_and_subs_created_ = true →
      (runUpdates k pf p ticks).plugin.pubs_and_subs_created_ = true ∧
      registrations (runUpdates k pf p ticks).effects = [] ∧
      measurementChannels (runUpdates k pf p ticks).effects = [] := by
  induction ticks with
  | nil => intro p h; simp [runUpdates, Outcome.plugin, Outcome.effects, registrations,
      measurementChannels, h]
  | cons t ts ih =>
    intro p h
    have h1 := OnUpdate_created k pf p t h
    simp only [runUpdates]
    cases ho : OnUpdate k pf p t with
    | error r => rw [ho] at h1; simpa using h1
    | ok r =>
      rw [ho] at h1
      simp only [Outcome.plugin, Outcome.effects] at h1
      have h2 := ih r.1 h1.1
      cases hr : runUpdates k pf r.1 ts with
      | error r2 =>
        rw [hr] at h2
        simp only [Outcome.plugin, Outcome.effects] at h2
        simp [hr, Outcome.plugin, Outcome.effects, registrations_append,
          measurementChannels_append, h1, h2]
      | ok r2 =>
        rw [hr] at h2
        simp only [Outcome.plugin, Outcome.effects] at h2
        simp [hr, Outcome.plugin, Outcome.effects, registrations_append,
          measurementChannels_append, h1, h2]

/-- From a state with the flag clear and a node at hand, any non-empty run of
`OnUpdate` calls ends with the flag set, having advertised the two measurement
channels and emitted the two registrations exactly once. -/
theorem runUpdates_first [Add D] (k : Constants D) (pf : Platform D G)
    (p : GazeboGpsPlugin D G) (t : Tick D) (ts : List (Tick D)) (node : Node)
    (h : p.pubs_and_subs_created_ = false) (hn : p.node_handle_ = some node) :
    (runUpdates k pf p (t :: ts)).plugin.pubs_and_subs_created_ = true ∧
      registrations (runUpdates k pf p (t :: ts)).effects =
        [ { gazebo_topic := some p.gps_topic_, ros_topic := some p.gps_topic_,
            msgtype := some MsgType.NAV_SAT_FIX },
          { gazebo_topic := some p.ground_speed_topic_, ros_topic := some p.ground_speed_topic_,
            msgtype := some MsgType.TWIST_STAMPED } ] ∧
      measurementChannels (runUpdates k pf p (t :: ts)).effects =
        [(p.gps_topic_, Channel.NavSatFix), (p.ground_speed_topic_, Channel.TwistStamped)] := by
  have h1 := OnUpdate_first k pf p t node h hn
  simp only [runUpdates]
  cases ho : OnUpdate k pf p t with
  | error r => rw [ho] at h1; simpa using h1
  | ok r =>
    rw [ho] at h1
    simp only [Outcome.plugin, Outcome.effects] at h1
    have h2 := runUpdates_created k pf ts r.1 h1.1
    cases hr : runUpdates k pf r.1 ts with
    | error r2 =>
      rw [hr] at h2
      simp only [Outcome.plugin, Outcome.effects] at h2
      simp [hr, Outcome.plugin, Outcome.effects, registrations_append,
        measurementChannels_append, h1, h2]
    | ok r2 =>
      rw [hr] at h2
      simp only [Outcome.plugin, Outcome.effects] at h2
      simp [hr, Outcome.plugin, Outcome.effects, registrations_append,
        measurementChannels_append, h1, h2]

theorem publishedFixes_append (a b : List (Effect D)) :
    publishedFixes (a ++ b) = publishedFixes a ++ publishedFixes b := by
  induction a with
  | nil => rfl
  | cons e es ih => cases e <;> simp [publishedFixes, ih]

theorem publishedTwists_append (a b : List (Effect D)) :
    publishedTwists (a ++ b) = publishedTwists a ++ publishedTwists b := by
  induction a with
  | nil => rfl
  | cons e es ih => cases e <;> simp [publishedTwists, ih]

/-- The vector `drawNoise` builds, the distributions and the generator it leaves,
written with the sampler alone: one draw per axis from that axis' distribution,
the draws chained through the generator in the platform's order. -/
theorem drawNoise_chain (pf : Platform D G) (n : Array3 (NormalDistribution D)) (g : G) :
    ∃ gx gy gz : G,
      (drawNoise pf n g).1 =
        { x := (pf.sample n.a0 gx).1, y := (pf.sample n.a1 gy).1,
          z := (pf.sample n.a2 gz).1 } ∧
      (drawNoise pf n g).2.1 =
        { a0 := (pf.sample n.a0 gx).2.1, a1 := (pf.sample n.a1 gy).2.1,
          a2 := (pf.sample n.a2 gz).2.1 } ∧
      evaluationChain pf.order g (gx, (pf.sample n.a0 gx).2.2) (gy, (pf.sample n.a1 gy).2.2)
        (gz, (pf.sample n.a2 gz).2.2) (drawNoise pf n g).2.2 := by
  obtain ⟨sample, order⟩ := pf
  cases order <;> simp only [drawNoise, sample3, evaluationChain] <;>
    exact ⟨_, _, _, rfl, rfl, rfl, rfl, rfl, rfl⟩

/-- A call of `OnUpdate` in a state without null pointers: what it publishes
and the state it leaves. -/
theorem OnUpdate_step [Add D] (k : Constants D) (pf : Platform D G)
    (p : GazeboGpsPlugin D G) (t : Tick D) (h : Ready p) :
    ∃ r, OnUpdate k pf p t = Except.ok r ∧
      publishedFixes r.2 = [fillGps t p.gz_gps_message_] ∧
      publishedTwists r.2 =
        [fillGroundSpeed t (noisedVelocity pf p t) p.gz_ground_speed_message_] ∧
      r.1.ground_speed_n_ = (drawNoise pf p.ground_speed_n_ p.random_generator_).2.1 ∧
      r.1.random_generator_ = (drawNoise pf p.ground_speed_n_ p.random_generator_).2.2 ∧
      r.1.updateConnection_ = p.updateConnection_ ∧ Ready r.1 := by
  obtain ⟨hl, hr⟩ := h
  obtain ⟨l, hlink⟩ := Option.isSome_iff_exists.mp hl
  cases hflag : p.pubs_and_subs_created_ with
  | true =>
    simp only [hflag, if_true] at hr
    obtain ⟨gp, hgp⟩ := Option.isSome_iff_exists.mp hr.1
    obtain ⟨sp, hsp⟩ := Option.isSome_iff_exists.mp hr.2
    simp [OnUpdate, ensurePubsAndSubs, measureAndPublish, hflag, hlink, hgp, hsp,
      publishedFixes, publishedTwists, noisedVelocity, Ready]
  | false =>
    simp only [hflag] at hr
    obtain ⟨nd, hnd⟩ := Option.isSome_iff_exists.mp (by simpa using hr)
    simp [OnUpdate, ensurePubsAndSubs, CreatePubsAndSubs, measureAndPublish, hflag, hlink,
      hnd, publishedFixes, publishedTwists, noisedVelocity, Ready]

/-- With a null link pointer a call of `OnUpdate` aborts, and what it did before
contains no fix and no twist. -/
theorem OnUpdate_null_link [Add D] (k : Constants D) (pf : Platform D G)
    (p : GazeboGpsPlugin D G) (t : Tick D) (h : p.link_ = none) :
    ∃ e, OnUpdate k pf p t = Except.error e ∧
      publishedFixes e.2 = [] ∧ publishedTwists e.2 = [] := by
  cases hf : p.pubs_and_subs_created_ <;> cases hn : p.node_handle_ <;>
    simp [OnUpdate, ensurePubsAndSubs, CreatePubsAndSubs, measureAndPublish, hf, hn, h,
      publishedFixes, publishedTwists]

theorem runSensorUpdates_null_link [Add D] (k : Constants D) (pf : Platform D G)
    (ticks : List (Tick D)) :
    ∀ p : GazeboGpsPlugin D G, p.link_ = none →
      publishedFixes (runSensorUpdates k pf p ticks).effects = [] ∧
      publishedTwists (runSensorUpdates k pf p ticks).effects = [] := by
  induction ticks with
  | nil => intro p _; simp [runSensorUpdates, Outcome.effects, publishedFixes, publishedTwists]
  | cons t ts ih =>
    intro p h
    cases hc : p.updateConnection_ with
    | none =>
      have h2 := ih p h
      cases hr : runSensorUpdates k pf p ts with
      | error r2 =>
        rw [hr] at h2
        simpa [runSensorUpdates, sensorUpdated, hc, hr, Outcome.effects] using h2
      | ok r2 =>
        rw [hr] at h2
        simpa [runSensorUpdates, sensorUpdated, hc, hr, Outcome.effects] using h2
    | some c =>
      cases c
      obtain ⟨e, he, hf, ht⟩ := OnUpdate_null_link k pf p t h
      simp [runSensorUpdates, sensorUpdated, hc, he, Outcome.effects, hf, ht]

theorem runSensorUpdates_Ready [Add D] (k : Constants D) (pf : Platform D G)
    (ticks : List (Tick D)) :
    ∀ p : GazeboGpsPlugin D G, Ready p → p.updateConnection_ = some Connection.OnUpdate →
      ∃ r, runSensorUpdates k pf p ticks = Except.ok r ∧
        (publishedFixes r.2).length = ticks.length ∧
        (publishedTwists r.2).length = ticks.length := by
  induction ticks with
  | nil => intro p _ _; simp [runSensorUpdates, publishedFixes, publishedTwists]
  | cons t ts ih =>
    intro p h hc
    obtain ⟨r, hr, hf, ht, -, -, hc2, hready⟩ := OnUpdate_step k pf p t h
    obtain ⟨r2, hr2, hf2, ht2⟩ := ih r.1 hready (hc2.trans hc)
    refine ⟨(r2.1, r.2 ++ r2.2), ?_, ?_, ?_⟩
    · simp [runSensorUpdates, sensorUpdated, hc, hr, hr2]
    · simp [publishedFixes_append, hf, hf2]
    · simp [publishedTwists_append, ht, ht2]

/-- With noise-free distributions, on a platform whose draw from a noise-free
distribution is 0 and leaves it noise-free, at a tick whose velocity components
are unchanged by adding zero, a call of `OnUpdate` publishes the position and the
velocity of the tick, and leaves the distributions noise-free. -/
theorem OnUpdate_noise_off [Zero D] [Add D] (k : Constants D) (pf : Platform D G)
    (p : GazeboGpsPlugin D G) (t : Tick D) (h : Ready p) (hn : NoiseOff p.ground_speed_n_)
    (hsample : ∀ (d : NormalDistribution D) (g : G), d.mean = 0 → d.stddev = 0 →
      (pf.sample d g).1 = 0 ∧ (pf.sample d g).2.1.mean = 0 ∧ (pf.sample d g).2.1.stddev = 0)
    (hadd : t.AddZeroExact) :
    ∃ r, OnUpdate k pf p t = Except.ok r ∧
      (publishedFixes r.2).map NavSatFix.position = [t.position] ∧
      (publishedTwists r.2).map (fun m => m.twist.linear) = [t.linear] ∧
      Ready r.1 ∧ NoiseOff r.1.ground_speed_n_ := by
  obtain ⟨r, hr, hf, ht, hdist, -, -, hready⟩ := OnUpdate_step k pf p t h
  obtain ⟨gx, gy, gz, hv, hd, -⟩ := drawNoise_chain pf p.ground_speed_n_ p.random_generator_
  obtain ⟨⟨m0, s0⟩, ⟨m1, s1⟩, ⟨m2, s2⟩⟩ := hn
  obtain ⟨x1, x2, x3⟩ := hsample p.ground_speed_n_.a0 gx m0 s0
  obtain ⟨y1, y2, y3⟩ := hsample p.ground_speed_n_.a1 gy m1 s1
  obtain ⟨z1, z2, z3⟩ := hsample p.ground_speed_n_.a2 gz m2 s2
  obtain ⟨ax, ay, az⟩ := hadd
  refine ⟨r, hr, ?_, ?_, hready, ?_⟩
  · simp [hf, fillGps, NavSatFix.position, Tick.position]
  · simp [ht, fillGroundSpeed, noisedVelocity, Vector3.add, hv, x1, y1, z1, ax, ay, az,
      Tick.linear]
  · rw [hdist, hd]
    exact ⟨⟨x2, x3⟩, ⟨y2, y3⟩, ⟨z2, z3⟩⟩

theorem runUpdates_noise_off [Zero D] [Add D] (k : Constants D) (pf : Platform D G)
    (hsample : ∀ (d : NormalDistribution D) (g : G), d.mean = 0 → d.stddev = 0 →
      (pf.sample d g).1 = 0 ∧ (pf.sample d g).2.1.mean = 0 ∧ (pf.sample d g).2.1.stddev = 0)
    (ticks : List (Tick D)) :
    ∀ p : GazeboGpsPlugin D G, Ready p → NoiseOff p.ground_speed_n_ →
      (∀ t ∈ ticks, t.AddZeroExact) →
      ∃ r, runUpdates k pf p ticks = Except.ok r ∧
        (publishedFixes r.2).map NavSatFix.position = ticks.map Tick.position ∧
        (publishedTwists r.2).map (fun m => m.twist.linear) = ticks.map Tick.linear := by
  induction ticks with
  | nil => intro p _ _ _; simp [runUpdates, publishedFixes, publishedTwists]
  | cons t ts ih =>
    intro p h hn hadd
    obtain ⟨r, hr, hf, ht, hready, hn2⟩ :=
      OnUpdate_noise_off k pf p t h hn hsample (hadd t (List.mem_cons_self t ts))
    obtain ⟨r2, hr2, hf2, ht2⟩ :=
      ih r.1 hready hn2 (fun u hu => hadd u (List.mem_cons_of_mem t hu))
    refine ⟨(r2.1, r.2 ++ r2.2), ?_, ?_, ?_⟩
    · simp [runUpdates, hr, hr2]
    · simp [publishedFixes_append, hf, hf2]
    · simp [publishedTwists_append, ht, ht2]

end Lemmas

/-! ## Properties of the plugin -/

/-- C1 (as stated, refuted): with a link name that does not resolve, `Load`
still connects `OnUpdate` to the sensor's update event, and the first update
event reaches `CreatePubsAndSubs`, which publishes the two registration records;
with `robotNamespace` absent (or `linkName` absent) `Load` connects `OnUpdate`
as well, and with the link resolved an update event publishes a fix and a
twist. -/
theorem unresolved_link_still_connects :
    (¬ LinkResolves demoWorld sdfUnresolvedLink ∧
      (freshLoaded demoConstants demoWorld sdfUnresolvedLink (0 : ℕ)).updateConnection_
        = some Connection.OnUpdate ∧
      connectedCallbacks (Load demoConstants demoWorld sdfUnresolvedLink
        (GazeboGpsPlugin.new (0 : ℕ))).2 = [Connection.OnUpdate] ∧
      (registrations (sensorUpdated demoConstants demoPlatform
        (freshLoaded demoConstants demoWorld sdfUnresolvedLink 0) demoTick).effects).length = 2) ∧
    (sdfNoNamespace.robotNamespace = none ∧
      connectedCallbacks (Load demoConstants demoWorld sdfNoNamespace
        (GazeboGpsPlugin.new (0 : ℕ))).2 = [Connection.OnUpdate] ∧
      (publishedFixes (sensorUpdated demoConstants demoPlatform
        (freshLoaded demoConstants demoWorld sdfNoNamespace 0) demoTick).effects).length = 1 ∧
      (publishedTwists (sensorUpdated demoConstants demoPlatform
        (freshLoaded demoConstants demoWorld sdfNoNamespace 0) demoTick).effects).length = 1) ∧
    (sdfNoLinkName.linkName = none ∧
      connectedCallbacks (Load demoConstants demoWorld sdfNoLinkName
        (GazeboGpsPlugin.new (0 : ℕ))).2 = [Connection.OnUpdate]) := by
  decide

/-- C1 (amended): an absent `robotNamespace`, an absent `linkName` and a link
name that does not resolve are each reported by an error line in the log.  When
the link name does not resolve (an absent `linkName` is looked up as the empty
name), no sequence of sensor update events after `Load` publishes a fix or a
twist record.  An absent `robotNamespace` or `linkName` does not by itself keep
the subscription from being made: whenever the link resolves, `Load` connects
`OnUpdate` to the sensor's update event exactly once, and every sequence of
update events returns having published one fix and one twist record per event. -/
theorem unresolved_link_publishes_no_measurement {D G : Type} [Zero D] [One D] [Add D] [Mul D]
    (k : Constants D) (pf : Platform D G) (world : World) (sdf : Sdf D) (seed : G) :
    (sdf.robotNamespace = none →
      Effect.gzerr errRobotNamespace ∈ (Load k world sdf (GazeboGpsPlugin.new seed)).2) ∧
    (sdf.linkName = none →
      Effect.gzerr errLinkName ∈ (Load k world sdf (GazeboGpsPlugin.new seed)).2) ∧
    (¬ LinkResolves world sdf →
      Effect.gzerr (errLink (configuredLinkName sdf)) ∈
        (Load k world sdf (GazeboGpsPlugin.new seed)).2 ∧
      ∀ ticks : List (Tick D),
        publishedFixes
          (runSensorUpdates k pf (freshLoaded k world sdf seed) ticks).effects = [] ∧
        publishedTwists
          (runSensorUpdates k pf (freshLoaded k world sdf seed) ticks).effects = []) ∧
    (LinkResolves world sdf →
      (freshLoaded k world sdf seed).updateConnection_ = some Connection.OnUpdate ∧
      connectedCallbacks (Load k world sdf (GazeboGpsPlugin.new seed)).2
        = [Connection.OnUpdate] ∧
      ∀ ticks : List (Tick D),
        ∃ r, runSensorUpdates k pf (freshLoaded k world sdf seed) ticks = Except.ok r ∧
          (publishedFixes r.2).length = ticks.length ∧
          (publishedTwists r.2).length = ticks.length) := by
  have hc : (freshLoaded k world sdf seed).updateConnection_ = some Connection.OnUpdate := by
    simp [freshLoaded, Load]
  refine ⟨?_, ?_, ?_, ?_⟩
  · intro h; simp [Load, h]
  · intro h; simp [Load, h]
  · intro h
    have h3 : dynamic_pointer_cast_Link (world.GetByName (configuredLinkName sdf)) = none := by
      simpa [LinkResolves] using h
    refine ⟨?_, ?_⟩
    · cases h2 : sdf.linkName <;> simp [configuredLinkName, h2] at h3 <;>
        simp [Load, h2, h3, configuredLinkName]
    · intro ticks
      exact runSensorUpdates_null_link k pf ticks _
        (by simp only [freshLoaded]; rw [Load_link_]; exact h3)
  · intro h
    refine ⟨hc, ?_, ?_⟩
    · cases h1 : sdf.robotNamespace <;> cases h2 : sdf.linkName <;>
        cases h3 : dynamic_pointer_cast_Link (world.GetByName "") <;>
        simp [Load, h1, h2, h3, connectedCallbacks] <;>
        split <;> simp [connectedCallbacks]
    · intro ticks
      exact runSensorUpdates_Ready k pf ticks _ (Load_Ready k world sdf seed h) hc

/-- The amended C1 at two configurations: with an unresolved link two update
events publish no fix and no twist; without `robotNamespace` and with the link
resolved, two update events publish two fixes and two twists. -/
theorem unresolved_link_publishes_no_measurement_witness :
    (¬ LinkResolves demoWorld sdfUnresolvedLink ∧
      publishedFixes (runSensorUpdates demoConstants demoPlatform
        (freshLoaded demoConstants demoWorld sdfUnresolvedLink (0 : ℕ))
        [demoTick, demoTick2]).effects = [] ∧
      publishedTwists (runSensorUpdates demoConstants demoPlatform
        (freshLoaded demoConstants demoWorld sdfUnresolvedLink (0 : ℕ))
        [demoTick, demoTick2]).effects = []) ∧
    (sdfNoNamespace.robotNamespace = none ∧ LinkResolves demoWorld sdfNoNamespace ∧
      ∃ r, runSensorUpdates demoConstants demoPlatform
          (freshLoaded demoConstants demoWorld sdfNoNamespace (0 : ℕ))
          [demoTick, demoTick2] = Except.ok r ∧
        (publishedFixes r.2).length = 2 ∧ (publishedTwists r.2).length = 2) :=
  ⟨⟨by decide,
    ((unresolved_link_publishes_no_measurement demoConstants demoPlatform demoWorld
      sdfUnresolvedLink (0 : ℕ)).2.2.1 (by decide)).2 [demoTick, demoTick2]⟩,
   ⟨rfl, by decide,
    ((unresolved_link_publishes_no_measurement demoConstants demoPlatform demoWorld
      sdfNoNamespace (0 : ℕ)).2.2.2 (by decide)).2.2 [demoTick, demoTick2]⟩⟩

/-- C2: on a freshly constructed and loaded plugin the flag is false; after any
run of one or more `OnUpdate` calls exactly two measurement channels have been
advertised and exactly two registration records emitted, all of them by the first
call, and the flag is true after the first call and after every later one. -/
theorem channels_created_exactly_once {D G : Type} [Zero D] [One D] [Add D] [Mul D]
    (k : Constants D) (pf : Platform D G) (world : World) (sdf : Sdf D) (seed : G)
    (ticks : List (Tick D)) (hn : 1 ≤ ticks.length) :
    (GazeboGpsPlugin.new seed : GazeboGpsPlugin D G).pubs_and_subs_created_ = false ∧
    (freshLoaded k world sdf seed).pubs_and_subs_created_ = false ∧
    (measurementChannels (runUpdates k pf (freshLoaded k world sdf seed) ticks).effects).length
      = 2 ∧
    (registrations (runUpdates k pf (freshLoaded k world sdf seed) ticks).effects).length = 2 ∧
    (∀ t ∈ ticks.head?,
      (measurementChannels (OnUpdate k pf (freshLoaded k world sdf seed) t).effects).length = 2 ∧
      (registrations (OnUpdate k pf (freshLoaded k world sdf seed) t).effects).length = 2) ∧
    (∀ n, 1 ≤ n →
      (runUpdates k pf (freshLoaded k world sdf seed) (ticks.take n)).plugin.pubs_and_subs_created_
        = true) := by
  have hflag : (freshLoaded k world sdf seed).pubs_and_subs_created_ = false := by
    simp [freshLoaded, Load, GazeboGpsPlugin.new]
  have hnode : (freshLoaded k world sdf seed).node_handle_ =
      some { ns := match sdf.robotNamespace with | some v => v | none => "" } := by
    simp [freshLoaded, Load]
  cases ticks with
  | nil => simp at hn
  | cons t ts =>
    have hrun := runUpdates_first k pf _ t ts _ hflag hnode
    have hone := OnUpdate_first k pf _ t _ hflag hnode
    refine ⟨rfl, hflag, by rw [hrun.2.2]; rfl, by rw [hrun.2.1]; rfl, ?_, ?_⟩
    · intro u hu
      simp only [List.head?_cons, Option.mem_def, Option.some.injEq] at hu
      subst hu
      exact ⟨by rw [hone.2.2]; rfl, by rw [hone.2.1]; rfl⟩
    · intro n hn1
      obtain ⟨m, rfl⟩ : ∃ m, n = m + 1 := ⟨n - 1, by omega⟩
      rw [List.take_succ_cons]
      exact (runUpdates_first k pf _ t (ts.take m) _ hflag hnode).1

/-- C2 at a run of three updates of the demo plugin. -/
theorem channels_created_exactly_once_witness :
    1 ≤ [demoTick, demoTick, demoTick].length ∧
    (measurementChannels (runUpdates demoConstants demoPlatform
      (freshLoaded demoConstants demoWorld demoSdf (0 : ℕ))
      [demoTick, demoTick, demoTick]).effects).length = 2 ∧
    (registrations (runUpdates demoConstants demoPlatform
      (freshLoaded demoConstants demoWorld demoSdf (0 : ℕ))
      [demoTick, demoTick, demoTick]).effects).length = 2 :=
  ⟨by decide,
   (channels_created_exactly_once demoConstants demoPlatform demoWorld demoSdf (0 : ℕ)
      [demoTick, demoTick, demoTick] (by decide)).2.2.1,
   (channels_created_exactly_once demoConstants demoPlatform demoWorld demoSdf (0 : ℕ)
      [demoTick, demoTick, demoTick] (by decide)).2.2.2.1⟩

/-- C3: a call of `OnUpdate` that meets no null pointer returns, having
published exactly one fix and one twist record; both carry the seconds and the
nanoseconds of the sensor's last measurement time read in that call, so their
time stamps are equal. -/
theorem fix_and_twist_share_timestamp {D G : Type} [Add D]
    (k : Constants D) (pf : Platform D G) (p : GazeboGpsPlugin D G) (t : Tick D)
    (h : Ready p) :
    ∃ r fix tw, OnUpdate k pf p t = Except.ok r ∧
      publishedFixes r.2 = [fix] ∧ publishedTwists r.2 = [tw] ∧
      fix.header.stamp.sec = some t.LastMeasurementTime.sec ∧
      fix.header.stamp.nsec = some t.LastMeasurementTime.nsec ∧
      tw.header.stamp.sec = some t.LastMeasurementTime.sec ∧
      tw.header.stamp.nsec = some t.LastMeasurementTime.nsec ∧
      fix.header.stamp.sec = tw.header.stamp.sec ∧
      fix.header.stamp.nsec = tw.header.stamp.nsec := by
  obtain ⟨r, hr, hf, ht, -, -⟩ := OnUpdate_of_Ready k pf p t h
  exact ⟨r, _, _, hr, hf, ht, by simp [fillGps, fillGroundSpeed]⟩

/-- C3 at the first update of the demo plugin. -/
theorem fix_and_twist_share_timestamp_witness :
    Ready (freshLoaded demoConstants demoWorld demoSdf (0 : ℕ)) ∧
    ∃ r fix tw, OnUpdate demoConstants demoPlatform
        (freshLoaded demoConstants demoWorld demoSdf (0 : ℕ)) demoTick = Except.ok r ∧
      publishedFixes r.2 = [fix] ∧ publishedTwists r.2 = [tw] ∧
      fix.header.stamp.sec = some 12 ∧
      fix.header.stamp.nsec = some 500000000 ∧
      tw.header.stamp.sec = some 12 ∧
      tw.header.stamp.nsec = some 500000000 ∧
      fix.header.stamp.sec = tw.header.stamp.sec ∧
      fix.header.stamp.nsec = tw.header.stamp.nsec :=
  ⟨by decide,
   fix_and_twist_share_timestamp demoConstants demoPlatform
     (freshLoaded demoConstants demoWorld demoSdf (0 : ℕ)) demoTick (by decide)⟩

/-- C4: after one `Load` on a freshly constructed plugin with position standard
deviations `h` (horizontal) and `v` (vertical) configured, the covariance list of
the fix record has exactly nine entries: `h * h` at 0 and 4, `v * v` at 8 and
zero at 1, 2, 3, 5, 6, 7, whatever the constants, the world, the other
configuration values and the generator seed are. -/
theorem position_covariance_after_Load {D G : Type} [Zero D] [One D] [Mul D]
    (k : Constants D) (world : World) (sdf : Sdf D) (seed : G) (h v : D) :
    (freshLoaded k world { sdf with horPosStdDev := some h, verPosStdDev := some v }
        seed).gz_gps_message_.position_covariance
      = [h * h, 0, 0, 0, h * h, 0, 0, 0, v * v] ∧
    (freshLoaded k world { sdf with horPosStdDev := some h, verPosStdDev := some v }
        seed).gz_gps_message_.position_covariance.length = 9 := by
  have e : (freshLoaded k world { sdf with horPosStdDev := some h, verPosStdDev := some v }
        seed).gz_gps_message_.position_covariance
      = [h * h, 0, 0, 0, h * h, 0, 0, 0, v * v] := by
    simp [freshLoaded, Load, covarianceLoop_eq, getSdfParam, GazeboGpsPlugin.new,
      NavSatFix.empty]
  exact ⟨e, by rw [e]; rfl⟩

/-- C5 (as stated, refuted): over numbers with the signed zero of `double`,
with both velocity standard deviations configured as 0 and every noise sample
equal to 0, a link velocity whose x component is -0.0 is published with x
component +0.0, because `OnUpdate` adds the zero sample to it. -/
theorem negative_zero_velocity_is_published_as_positive_zero :
    (signedSdf.horVelStdDev = some 0 ∧ signedSdf.verVelStdDev = some 0) ∧
    (drawNoise signedPlatform
        (freshLoaded signedConstants demoWorld signedSdf (0 : ℕ)).ground_speed_n_
        (freshLoaded signedConstants demoWorld signedSdf (0 : ℕ)).random_generator_).1
      = { x := 0, y := 0, z := 0 } ∧
    signedTick.WorldLinearVel.x = SignedZero.negZero ∧
    (publishedTwists (OnUpdate signedConstants signedPlatform
        (freshLoaded signedConstants demoWorld signedSdf (0 : ℕ)) signedTick).effects).map
      (fun m => m.twist.linear.x) = [some (SignedZero.num 0)] ∧
    SignedZero.num 0 ≠ SignedZero.negZero := by
  have hz : (0 : SignedZero) = SignedZero.num 0 := rfl
  have hadd : ∀ a b : SignedZero, a + b = SignedZero.add a b := fun _ _ => rfl
  have hmul : ∀ a b : SignedZero, a * b = SignedZero.mul a b := fun _ _ => rfl
  have hready : Ready (freshLoaded signedConstants demoWorld signedSdf (0 : ℕ)) := by decide
  obtain ⟨r, hr, -, ht, -, -⟩ :=
    OnUpdate_of_Ready signedConstants signedPlatform _ signedTick hready
  refine ⟨⟨rfl, rfl⟩, ?_, rfl, ?_, by decide⟩
  · simp [drawNoise, sample3, signedPlatform, freshLoaded, Load, GazeboGpsPlugin.new,
      getSdfParam, signedSdf, NormalDistribution.mk2, hz, hadd, hmul, SignedZero.add,
      SignedZero.mul]
    norm_num
  · rw [hr]
    simp [Outcome.effects, ht, fillGroundSpeed, noisedVelocity, Vector3.add, drawNoise, sample3,
      signedPlatform, freshLoaded, Load, GazeboGpsPlugin.new, getSdfParam, signedSdf,
      signedTick, NormalDistribution.mk2, hz, hadd, hmul, SignedZero.add, SignedZero.mul]

/-- C5 (amended): with both velocity standard deviations configured as 0, on a
platform whose draw from a distribution of mean 0 and standard deviation 0 is 0
and leaves these two parameters 0, every `OnUpdate` call of a run after `Load`
(link resolved) returns, and the fixes published carry exactly the latitude,
longitude and altitude of their ticks and the twists exactly the link
velocities of their ticks, for ticks whose velocity components `v` satisfy
`v + 0 = v` (for `double`: every value but -0.0 and NaN). -/
theorem noise_disabled_publishes_ground_truth {D G : Type} [Zero D] [One D] [Add D] [Mul D]
    (k : Constants D) (pf : Platform D G) (world : World) (sdf : Sdf D) (seed : G)
    (ticks : List (Tick D))
    (hsample : ∀ (d : NormalDistribution D) (g : G), d.mean = 0 → d.stddev = 0 →
      (pf.sample d g).1 = 0 ∧ (pf.sample d g).2.1.mean = 0 ∧ (pf.sample d g).2.1.stddev = 0)
    (hadd : ∀ t ∈ ticks, t.AddZeroExact)
    (hlink : LinkResolves world sdf) :
    ∃ r,
      runUpdates k pf
        (freshLoaded k world { sdf with horVelStdDev := some 0, verVelStdDev := some 0 } seed)
        ticks = Except.ok r ∧
      (publishedFixes r.2).map NavSatFix.position = ticks.map Tick.position ∧
      (publishedTwists r.2).map (fun m => m.twist.linear) = ticks.map Tick.linear := by
  have hready : Ready (freshLoaded k world
      { sdf with horVelStdDev := some 0, verVelStdDev := some 0 } seed) :=
    Load_Ready k world _ seed (by simpa [LinkResolves, configuredLinkName] using hlink)
  have hn : NoiseOff (freshLoaded k world
      { sdf with horVelStdDev := some 0, verVelStdDev := some 0 } seed).ground_speed_n_ := by
    simp [NoiseOff, freshLoaded, Load, getSdfParam, NormalDistribution.mk2]
  exact runUpdates_noise_off k pf hsample ticks _ hready hn hadd

/-- The amended C5 at a run of two updates: the example of the spec, position
(47, 8.5, 500) and velocity (1, 0, 0), then position (48, 9, 510) and velocity
(2, -1, 0.5); both are published unchanged. -/
theorem noise_disabled_publishes_ground_truth_witness :
    ((∀ (d : NormalDistribution ℚ) (g : ℕ), d.mean = 0 → d.stddev = 0 →
        (demoPlatform.sample d g).1 = 0 ∧ (demoPlatform.sample d g).2.1.mean = 0 ∧
          (demoPlatform.sample d g).2.1.stddev = 0) ∧
      (∀ t ∈ [demoTick, demoTick2], t.AddZeroExact) ∧
      LinkResolves demoWorld demoSdf) ∧
    ∃ r,
      runUpdates demoConstants demoPlatform
        (freshLoaded demoConstants demoWorld
          { demoSdf with horVelStdDev := some 0, verVelStdDev := some 0 } (0 : ℕ))
        [demoTick, demoTick2] = Except.ok r ∧
      (publishedFixes r.2).map NavSatFix.position =
        [(some 47, some (17 / 2), some 500), (some 48, some 9, some 510)] ∧
      (publishedTwists r.2).map (fun m => m.twist.linear) =
        [{ x := some 1, y := some 0, z := some 0 },
         { x := some 2, y := some (-1), z := some (1 / 2) }] :=
  ⟨⟨fun d g h1 h2 => by simp [demoPlatform, h1, h2],
    fun t _ => ⟨add_zero _, add_zero _, add_zero _⟩,
    by decide⟩,
   noise_disabled_publishes_ground_truth demoConstants demoPlatform demoWorld demoSdf (0 : ℕ)
     [demoTick, demoTick2] (fun d g h1 h2 => by simp [demoPlatform, h1, h2])
     (fun t _ => ⟨add_zero _, add_zero _, add_zero _⟩) (by decide)⟩

/-- C6: whatever the plugin state and the tick, and whether the call returns or
aborts, `OnUpdate` leaves the fix record's frame id, service, status, covariance
type and covariance list (entries and number) and the twist record's frame id as
they were; the remaining fields of the two records are latitude, longitude,
altitude, the twist's linear velocity and the two time stamps. -/
theorem OnUpdate_keeps_static_fields {D G : Type} [Add D]
    (k : Constants D) (pf : Platform D G) (p : GazeboGpsPlugin D G) (t : Tick D) :
    (OnUpdate k pf p t).plugin.gz_gps_message_.header.frame_id
      = p.gz_gps_message_.header.frame_id ∧
    (OnUpdate k pf p t).plugin.gz_gps_message_.service = p.gz_gps_message_.service ∧
    (OnUpdate k pf p t).plugin.gz_gps_message_.status = p.gz_gps_message_.status ∧
    (OnUpdate k pf p t).plugin.gz_gps_message_.position_covariance_type
      = p.gz_gps_message_.position_covariance_type ∧
    (OnUpdate k pf p t).plugin.gz_gps_message_.position_covariance
      = p.gz_gps_message_.position_covariance ∧
    (OnUpdate k pf p t).plugin.gz_gps_message_.position_covariance.length
      = p.gz_gps_message_.position_covariance.length ∧
    (OnUpdate k pf p t).plugin.gz_ground_speed_message_.header.frame_id
      = p.gz_ground_speed_message_.header.frame_id := by
  cases hf : p.pubs_and_subs_created_ <;> cases hn : p.node_handle_ <;>
    cases hl : p.link_ <;> cases hg : p.gz_gps_pub_ <;>
    cases hs : p.gz_ground_speed_pub_ <;>
    simp [OnUpdate, ensurePubsAndSubs, CreatePubsAndSubs, measureAndPublish, hf, hn, hl, hg,
      hs, Outcome.plugin, fillGps, fillGroundSpeed]

/-- C7: with a node at hand, `CreatePubsAndSubs` returns after these transport
calls, in this order: advertise the registration channel, advertise the fix
channel on `g`, publish the record (`g`, `g`, NAV_SAT_FIX), advertise the twist
channel on `s`, publish the record (`s`, `s`, TWIST_STAMPED), where `g` and `s`
are the fix and twist topics.  These are its only two registration records, and
every field of the second is the twist topic or the twist tag. -/
theorem CreatePubsAndSubs_registers_fix_then_twist {D G : Type}
    (k : Constants D) (p : GazeboGpsPlugin D G) (node : Node)
    (h : p.node_handle_ = some node) :
    ∃ r, CreatePubsAndSubs k p = Except.ok r ∧
      registrations r.2 =
        [ { gazebo_topic := some p.gps_topic_, ros_topic := some p.gps_topic_,
            msgtype := some MsgType.NAV_SAT_FIX },
          { gazebo_topic := some p.ground_speed_topic_,
            ros_topic := some p.ground_speed_topic_,
            msgtype := some MsgType.TWIST_STAMPED } ] ∧
      transportCalls r.2 =
        [ Effect.advertise ("~/" ++ k.kConnectGazeboToRosSubtopic)
            Channel.ConnectGazeboToRosTopic 1,
          Effect.advertise p.gps_topic_ Channel.NavSatFix 1,
          Effect.publishConnect
            { topic := "~/" ++ k.kConnectGazeboToRosSubtopic,
              channel := Channel.ConnectGazeboToRosTopic, queueLimit := 1 }
            { gazebo_topic := some p.gps_topic_, ros_topic := some p.gps_topic_,
              msgtype := some MsgType.NAV_SAT_FIX } true,
          Effect.advertise p.ground_speed_topic_ Channel.TwistStamped 1,
          Effect.publishConnect
            { topic := "~/" ++ k.kConnectGazeboToRosSubtopic,
              channel := Channel.ConnectGazeboToRosTopic, queueLimit := 1 }
            { gazebo_topic := some p.ground_speed_topic_,
              ros_topic := some p.ground_speed_topic_,
              msgtype := some MsgType.TWIST_STAMPED } false ] := by
  simp [CreatePubsAndSubs, h, registrations, transportCalls, Node.Advertise,
    ConnectGazeboToRosTopic.empty]

/-- C7 at the demo plugin after `Load`: topics "gps" and "ground_speed". -/
theorem CreatePubsAndSubs_registers_fix_then_twist_witness :
    (freshLoaded demoConstants demoWorld demoSdf (0 : ℕ)).node_handle_
      = some { ns := "firefly" } ∧
    ∃ r, CreatePubsAndSubs demoConstants
        (freshLoaded demoConstants demoWorld demoSdf (0 : ℕ)) = Except.ok r ∧
      registrations r.2 =
        [ { gazebo_topic := some "gps", ros_topic := some "gps",
            msgtype := some MsgType.NAV_SAT_FIX },
          { gazebo_topic := some "ground_speed", ros_topic := some "ground_speed",
            msgtype := some MsgType.TWIST_STAMPED } ] :=
  ⟨by decide,
   (CreatePubsAndSubs_registers_fix_then_twist demoConstants
      (freshLoaded demoConstants demoWorld demoSdf (0 : ℕ)) { ns := "firefly" }
      (by decide)).imp (fun _ hr => ⟨hr.1, hr.2.1⟩)⟩

/-- C8: after `Load` with link name `L` configured, the twist record's frame id
is `L` and the fix record's frame id is the literal "test", whatever `L` is; the
two are equal exactly when `L` is "test". -/
theorem frame_ids_after_Load {D G : Type} [Zero D] [Mul D]
    (k : Constants D) (world : World) (sdf : Sdf D) (p : GazeboGpsPlugin D G) (L : String) :
    (Load k world { sdf with linkName := some L } p).1.gz_ground_speed_message_.header.frame_id
      = some L ∧
    (Load k world { sdf with linkName := some L } p).1.gz_gps_message_.header.frame_id
      = some "test" ∧
    ((Load k world { sdf with linkName := some L } p).1.gz_gps_message_.header.frame_id
        = (Load k world { sdf with linkName := some L } p).1.gz_ground_speed_message_.header.frame_id
      ↔ L = "test") := by
  simp [Load, covarianceLoop_eq, eq_comm]

/-- C9: `Load` sets the three distributions to mean 0 and standard deviations
(horizontal, horizontal, vertical velocity).  A call of `OnUpdate` that meets no
null pointer returns with one twist published; there are generator states `gx`,
`gy`, `gz` such that the twist's linear velocity is the link velocity plus, per
axis, the value drawn from that axis' distribution at that generator state; the
three draws are chained in the platform's argument order, the first from the
generator the call found and each later one from the generator the draw before
it left; the call stores the three distributions as the draws left them and the
generator as the last draw left it, and the state is again one in which
`OnUpdate` meets no null pointer, so the next call draws afresh. -/
theorem twist_velocity_is_velocity_plus_noise {D G : Type} [Zero D] [One D] [Add D] [Mul D]
    (k : Constants D) (pf : Platform D G) (world : World) (sdf : Sdf D)
    (p : GazeboGpsPlugin D G) (t : Tick D) (h : Ready p) :
    (Load k world sdf p).1.ground_speed_n_ =
      { a0 := NormalDistribution.mk2 0 (getSdfParam sdf.horVelStdDev k.kDefaultHorVelStdDev),
        a1 := NormalDistribution.mk2 0 (getSdfParam sdf.horVelStdDev k.kDefaultHorVelStdDev),
        a2 := NormalDistribution.mk2 0 (getSdfParam sdf.verVelStdDev k.kDefaultVerVelStdDev) } ∧
    ∃ r tw, ∃ gx gy gz : G,
      OnUpdate k pf p t = Except.ok r ∧ publishedTwists r.2 = [tw] ∧
      tw.twist.linear =
        { x := some (t.WorldLinearVel.x + (pf.sample p.ground_speed_n_.a0 gx).1),
          y := some (t.WorldLinearVel.y + (pf.sample p.ground_speed_n_.a1 gy).1),
          z := some (t.WorldLinearVel.z + (pf.sample p.ground_speed_n_.a2 gz).1) } ∧
      r.1.ground_speed_n_ =
        { a0 := (pf.sample p.ground_speed_n_.a0 gx).2.1,
          a1 := (pf.sample p.ground_speed_n_.a1 gy).2.1,
          a2 := (pf.sample p.ground_speed_n_.a2 gz).2.1 } ∧
      evaluationChain pf.order p.random_generator_
        (gx, (pf.sample p.ground_speed_n_.a0 gx).2.2)
        (gy, (pf.sample p.ground_speed_n_.a1 gy).2.2)
        (gz, (pf.sample p.ground_speed_n_.a2 gz).2.2)
        r.1.random_generator_ ∧
      Ready r.1 := by
  refine ⟨by simp [Load], ?_⟩
  obtain ⟨r, hr, -, ht, hdist, hgen, -, hready⟩ := OnUpdate_step k pf p t h
  obtain ⟨gx, gy, gz, hv, hd, hchain⟩ :=
    drawNoise_chain pf p.ground_speed_n_ p.random_generator_
  refine ⟨r, _, gx, gy, gz, hr, ht, ?_, ?_, ?_, hready⟩
  · simp [fillGroundSpeed, noisedVelocity, Vector3.add, hv]
  · rw [hdist, hd]
  · rw [hgen]; exact hchain

/-- C9 at the demo plugin with velocity standard deviations 2 and 3: the
arguments are evaluated last to first and the generator is a counter starting
at 5, so the draws are 3 * 5 for z, 2 * 6 for y and 2 * 7 for x, and the call
leaves the counter at 8. -/
theorem twist_velocity_is_velocity_plus_noise_witness :
    Ready (freshLoaded demoConstants demoWorld
      { demoSdf with horVelStdDev := some 2, verVelStdDev := some 3 } (5 : ℕ)) ∧
    ∃ r tw, OnUpdate demoConstants demoPlatform
        (freshLoaded demoConstants demoWorld
          { demoSdf with horVelStdDev := some 2, verVelStdDev := some 3 } (5 : ℕ)) demoTick
        = Except.ok r ∧
      publishedTwists r.2 = [tw] ∧
      tw.twist.linear = { x := some (1 + 14), y := some (0 + 12), z := some (0 + 15) } ∧
      r.1.random_generator_ = 8 := by
  refine ⟨by decide, ?_⟩
  obtain ⟨-, r, tw, gx, gy, gz, hr, ht, hl, -, hchain, -⟩ :=
    twist_velocity_is_velocity_plus_noise demoConstants demoPlatform demoWorld demoSdf
      (freshLoaded demoConstants demoWorld
        { demoSdf with horVelStdDev := some 2, verVelStdDev := some 3 } (5 : ℕ)) demoTick
      (by decide)
  simp only [evaluationChain, demoPlatform, freshLoaded, Load, GazeboGpsPlugin.new] at hchain
  obtain ⟨hz, hy, hx, hg⟩ := hchain
  subst hz; subst hy; subst hx
  refine ⟨r, tw, hr, ht, ?_, hg⟩
  rw [hl]
  simp [demoPlatform, freshLoaded, Load, GazeboGpsPlugin.new, getSdfParam,
    demoSdf, demoTick, NormalDistribution.mk2]
  norm_num

/-- C10: take two runs of `Load` on a fresh plugin followed by `OnUpdate`, with
the same world, constants, namespace, link name and topics and the same sensor
position and measurement time; let them differ in the four standard deviations,
the platform (hence the noise drawn), the seed and the link velocity.  With the
link resolved both publish one fix, and the two fixes have the same latitude,
longitude, altitude and time stamp.  If only the two position standard
deviations differ, the published twists are equal and the fixes differ at most in
their covariance entries. -/
theorem position_independent_of_noise_configuration {D G : Type}
    [Zero D] [One D] [Add D] [Mul D]
    (k : Constants D) (pf1 pf2 : Platform D G) (world : World) (sdf : Sdf D)
    (a b c d : Option D) (seed1 seed2 : G) (t : Tick D) (v2 : Vector3 D)
    (hlink : LinkResolves world sdf) :
    ∃ r1 r2 r3 f1 f2 f3 w1 w3,
      OnUpdate k pf1 (freshLoaded k world sdf seed1) t = Except.ok r1 ∧
      OnUpdate k pf2
        (freshLoaded k world
          { sdf with horPosStdDev := a, verPosStdDev := b, horVelStdDev := c,
                     verVelStdDev := d } seed2)
        { t with WorldLinearVel := v2 } = Except.ok r2 ∧
      OnUpdate k pf1
        (freshLoaded k world { sdf with horPosStdDev := a, verPosStdDev := b } seed1) t
        = Except.ok r3 ∧
      publishedFixes r1.2 = [f1] ∧ publishedFixes r2.2 = [f2] ∧ publishedFixes r3.2 = [f3] ∧
      publishedTwists r1.2 = [w1] ∧ publishedTwists r3.2 = [w3] ∧
      f1.latitude = f2.latitude ∧ f1.longitude = f2.longitude ∧
      f1.altitude = f2.altitude ∧ f1.header.stamp = f2.header.stamp ∧
      w3 = w1 ∧
      { f3 with position_covariance := f1.position_covariance } = f1 := by
  have h1 := Load_Ready k world sdf seed1 hlink
  have h2 := Load_Ready k world
    { sdf with horPosStdDev := a, verPosStdDev := b, horVelStdDev := c, verVelStdDev := d }
    seed2 (by simpa [LinkResolves, configuredLinkName] using hlink)
  have h3 := Load_Ready k world { sdf with horPosStdDev := a, verPosStdDev := b }
    seed1 (by simpa [LinkResolves, configuredLinkName] using hlink)
  obtain ⟨r1, hr1, hf1, ht1, -, -⟩ := OnUpdate_of_Ready k pf1 _ t h1
  obtain ⟨r2, hr2, hf2, -, -, -⟩ := OnUpdate_of_Ready k pf2 _ { t with WorldLinearVel := v2 } h2
  obtain ⟨r3, hr3, hf3, ht3, -, -⟩ := OnUpdate_of_Ready k pf1 _ t h3
  refine ⟨r1, r2, r3, _, _, _, _, _, hr1, hr2, hr3, hf1, hf2, hf3, ht1, ht3, ?_, ?_, ?_, ?_, ?_, ?_⟩
  · simp [fillGps]
  · simp [fillGps]
  · simp [fillGps]
  · simp [fillGps]
  · simp [fillGroundSpeed, noisedVelocity, freshLoaded, Load, GazeboGpsPlugin.new]
  · simp [fillGps, freshLoaded, Load, GazeboGpsPlugin.new, covarianceLoop_eq]

/-- C10 at the demo plugin: the second run has other standard deviations, a
different seed and a different link velocity. -/
theorem position_independent_of_noise_configuration_witness :
    LinkResolves demoWorld demoSdf ∧
    ∃ r1 r2 f1 f2,
      OnUpdate demoConstants demoPlatform (freshLoaded demoConstants demoWorld demoSdf (0 : ℕ))
        demoTick = Except.ok r1 ∧
      OnUpdate demoConstants demoPlatform
        (freshLoaded demoConstants demoWorld
          { demoSdf with horPosStdDev := some 1, verPosStdDev := none,
                         horVelStdDev := some 2, verVelStdDev := some 5 } (9 : ℕ))
        { demoTick with WorldLinearVel := { x := 4, y := 5, z := 6 } } = Except.ok r2 ∧
      publishedFixes r1.2 = [f1] ∧ publishedFixes r2.2 = [f2] ∧
      f1.latitude = f2.latitude ∧ f1.longitude = f2.longitude ∧
      f1.altitude = f2.altitude ∧ f1.header.stamp = f2.header.stamp := by
  refine ⟨by decide, ?_⟩
  obtain ⟨r1, r2, -, f1, f2, -, -, -, h1, h2, -, hf1, hf2, -, -, -, e1, e2, e3, e4, -, -⟩ :=
    position_independent_of_noise_configuration demoConstants demoPlatform demoPlatform
      demoWorld demoSdf (some 1) none (some 2) (some 5) (0 : ℕ) (9 : ℕ) demoTick
      { x := 4, y := 5, z := 6 } (by decide)
  exact ⟨r1, r2, f1, f2, h1, h2, hf1, hf2, e1, e2, e3, e4⟩

end GazeboGps
